import Mathlib

/-!
Verification development for the avalanche-cli repository core:
the linear backtracking state machine driving the subnet-creation wizard,
the genesis-configuration wizard command, the AWS cluster provisioning
orchestrator with its compensating teardown, and the per-node bootstrap
fan-out with its node-result aggregation.

Each definition is a shallow embedding of the corresponding Go function.
Machine integers are modelled as Nat with explicit bounds where overflow
matters; fallible Go functions return Except; Go maps mutated in a
single-threaded context are modelled as association lists preserving the
insertion order.
-/

namespace AvalancheCLI

/-! ## Linear backtracking state machine (pkg/statemachine)

The statemachine package itself is not among the provided sources; only its
caller createEvmGenesisBytes (src/unnamed/part_010) is. The definitions below
are therefore modelled from the specification, section 4.1. -/

/-- Modelled from the spec: the stage transition signal, a tagged value of
Forward, Backward and Stop-with-error (spec section 3, "Stage Transition
Signal"). -/
inductive StateDirection where
  | Forward
  | Backward
  | Stop
deriving DecidableEq, Repr

/-- Modelled from the spec: the failures of the state machine named by the
specification: DuplicateStageError on construction from a repeating list,
InvalidBacktrack on Backward from position zero, and the abort carried by the
Stop-with-error signal. -/
inductive SMError where
  | DuplicateStageError
  | InvalidBacktrack
  | StopWithError
deriving DecidableEq, Repr

/-- Modelled from the spec: the state machine holds the immutable ordered
stage list and the current index; the index is a Nat, so "within bounds or
past the end" is index < length or index >= length (spec section 3, "Stage
Sequence"). -/
structure StateMachine where
  states : List String
  index : Nat
deriving DecidableEq, Repr

/-- Modelled from the spec: name returned by CurrentState once the index has
moved past the end of the stage list (the "past-the-end marker"). -/
def endState : String := "state_machine_end"

/-- Modelled from the spec: construction from an ordered list of stage names,
failing with DuplicateStageError if names repeat; the machine starts at the
first stage (index 0). -/
def NewStateMachine (states : List String) : Except SMError StateMachine :=
  if states.Nodup then Except.ok { states := states, index := 0 }
  else Except.error SMError.DuplicateStageError

/-- Modelled from the spec: Running is true while the index is within
[0, len) (spec section 4.1); the index is a Nat so only the upper bound is
checked. -/
def Running (sm : StateMachine) : Bool :=
  sm.index < sm.states.length

/-- Modelled from the spec: CurrentState returns the stage name at the
current index, or the past-the-end marker. -/
def CurrentState (sm : StateMachine) : String :=
  sm.states.getD sm.index endState

/-- Modelled from the spec: NextState Forward increments the index;
NextState Backward fails with InvalidBacktrack at index zero and otherwise
decrements the index; the Stop-with-error signal aborts. No other state is
touched (spec section 4.1). -/
def NextState (sm : StateMachine) (direction : StateDirection) :
    Except SMError StateMachine :=
  match direction with
  | StateDirection.Forward =>
      Except.ok { sm with index := sm.index + 1 }
  | StateDirection.Backward =>
      if sm.index = 0 then Except.error SMError.InvalidBacktrack
      else Except.ok { sm with index := sm.index - 1 }
  | StateDirection.Stop => Except.error SMError.StopWithError

/-! ## Subnet name validation (cmd/subnetcmd/create.go, checkInvalidSubnetNames) -/

/-- The error value errIllegalNameCharacter of cmd/subnetcmd/create.go; its
message claims only letters are allowed although digits and spaces pass the
check. -/
def errIllegalNameCharacter : String :=
  "illegal name character: only letters, no special characters allowed"

/-- unicode.IsLetter restricted to the ASCII range, which is the only range
that can reach it in checkInvalidSubnetNames past the r > unicode.MaxASCII
guard (for larger runes the disjunction is already decided). -/
def goIsLetterASCII (r : Char) : Bool :=
  (97 ≤ r.toNat && r.toNat ≤ 122) || (65 ≤ r.toNat && r.toNat ≤ 90)

/-- unicode.IsNumber restricted to the ASCII range, where it holds exactly on
the decimal digits. -/
def goIsNumberASCII (r : Char) : Bool :=
  48 ≤ r.toNat && r.toNat ≤ 57

/-- checkInvalidSubnetNames from cmd/subnetcmd/create.go lines 605-613 (the
same code appears in src/unnamed/part_001 lines 921-929): iterate the runes
of the name and fail with errIllegalNameCharacter on the first rune that is
non-ASCII or is not a letter, a number or a space. The name is modelled as
its list of runes. -/
def checkInvalidSubnetNames : List Char → Except String Unit
  | [] => Except.ok ()
  | r :: rest =>
      if r.toNat > 127 || !(goIsLetterASCII r || goIsNumberASCII r || r == ' ')
      then Except.error errIllegalNameCharacter
      else checkInvalidSubnetNames rest

/-! ## Cloud configuration records and the key-pair registry
(cmd/nodecmd create flow, src/unnamed/part_000) -/

/-- models.CloudConfig as used by the node create flow (the models package
file with this type is not among the sources; the fields are those read and
written in src/cmd/nodecmd/create_aws.go lines 364-375 and
src/unnamed/part_000 lines 318-345). -/
structure CloudConfig where
  InstanceIDs : List String
  PublicIPs : List String
  Region : String
  KeyPair : String
  SecurityGroup : String
  CertFilePath : String
  ImageID : String
deriving DecidableEq, Repr

/-- models.ClustersConfig restricted to the KeyPair table used by
updateKeyPairClustersConfig: the Go map from key-pair name to certificate
path is modelled as an association list in insertion order (the flow mutates
it single-threaded, spec section 5). -/
structure ClustersConfig where
  KeyPair : List (String × String)
deriving DecidableEq, Repr

/-- Lookup in the key-pair table: the Go two-valued map read
clustersConfig.KeyPair[name]. -/
def lookupKeyPair (table : List (String × String)) (name : String) :
    Option String :=
  (table.find? (fun p => p.1 == name)).map Prod.snd

/-- updateKeyPairClustersConfig from src/unnamed/part_000 lines 350-366:
load the clusters config when the store holds one (none models a missing
config file), initialize the nil map, and only when the key-pair name of the cloud config
is absent bind it to the certificate path of that cloud config; the
result is written back. An existing binding is never overwritten. -/
def updateKeyPairClustersConfig (cloudConfig : CloudConfig)
    (store : Option ClustersConfig) : ClustersConfig :=
  let clustersConfig := store.getD { KeyPair := [] }
  if (lookupKeyPair clustersConfig.KeyPair cloudConfig.KeyPair).isSome then
    clustersConfig
  else
    { clustersConfig with
        KeyPair :=
          clustersConfig.KeyPair ++ [(cloudConfig.KeyPair, cloudConfig.CertFilePath)] }

/-! ## AWS teardown on partial creation failure
(cmd/nodecmd/create_aws.go, createAWSInstances lines 322-363) -/

/-- The outcomes of the error path of createAWSInstances: the original creation
error surfaced unchanged, the consolidated failed-to-stop error enumerating
the instances whose stop call failed, and the early exits of the teardown
prologue (terraform output read failures and the id/region count guard). -/
inductive AWSCreateError where
  | creation (msg : String)
  | failedToStop (nodes : List String)
  | countMismatch (nIDs nRegions : Nat)
deriving DecidableEq, Repr

/-- The double loop of create_aws.go lines 344-352 over the terraform
instance map (region to instance ids): every instance receives a stop call
(stopOk region id models awsAPI.StopInstance succeeding), and the ids whose
stop failed are recorded. Returns the stop calls attempted in order and the
recorded failed instance ids. -/
def runStopLoop (stopOk : String → String → Bool) :
    List (String × List String) → List (String × String) × List String
  | [] => ([], [])
  | (region, iids) :: rest =>
      let restResult := runStopLoop stopOk rest
      (iids.map (fun i => (region, i)) ++ restResult.1,
       iids.filter (fun i => !(stopOk region i)) ++ restResult.2)

/-- All stop calls the teardown must attempt: one per created instance, in
the order of the terraform instance map. -/
def allStopCalls : List (String × List String) → List (String × String)
  | [] => []
  | (region, iids) :: rest =>
      iids.map (fun i => (region, i)) ++ allStopCalls rest

/-- The teardown block of createAWSInstances (create_aws.go lines 329-362),
entered when the infra apply failed after instances were created: after the
guard comparing the number of map entries with the number of region outputs
(lines 340-342), stop every created instance, and return the consolidated
failed-to-stop error when any stop failed (lines 353-360) or surface the
original creation error when all stops succeeded (line 362). -/
def createAWSInstancesTeardown (creationErrMsg : String)
    (instanceIDs : List (String × List String))
    (instanceRegions : List String)
    (stopOk : String → String → Bool) : AWSCreateError :=
  if instanceIDs.length ≠ instanceRegions.length then
    AWSCreateError.countMismatch instanceIDs.length instanceRegions.length
  else
    let failedNodes := (runStopLoop stopOk instanceIDs).2
    if failedNodes.isEmpty then AWSCreateError.creation creationErrMsg
    else AWSCreateError.failedToStop failedNodes

/-! ## Node create preconditions and collaborator ordering
(src/unnamed/part_000, preCreateChecks lines 100-121 and createNodes
lines 123-160) -/

/-- constants.AWSDefaultCredential (the constants package is not among the
sources; the value is the AWS SDK default profile name and only its equality
with the flag matters here). -/
def AWSDefaultCredential : String := "default"

/-- The package-level flag variables read by preCreateChecks, gathered into a
record (the design note of the spec on global mutable flag variables). numNodes
is Go []int. -/
structure NodeCreateFlags where
  useLatestAvalanchegoVersion : Bool
  useAvalanchegoVersionFromSubnet : String
  useAWS : Bool
  useGCP : Bool
  awsProfile : String
  cmdLineRegion : List String
  numNodes : List Int
  nodeType : String
  cmdLineGCPCredentialsPath : String
  cmdLineGCPProjectName : String
deriving DecidableEq, Repr

/-- The configuration errors preCreateChecks can return, in source order. -/
inductive PreCreateErr where
  | versionConflict
  | cloudConflict
  | profileWithoutAWS
  | regionNodeCountMismatch
deriving DecidableEq, Repr

/-- The default instance type selection at the end of preCreateChecks
(part_000 lines 113-119). -/
def setDefaultNodeType (f : NodeCreateFlags) : NodeCreateFlags :=
  if f.nodeType = "default" ∧ f.useAWS then { f with nodeType := "c5.2xlarge" }
  else if f.nodeType = "default" ∧ f.useGCP then { f with nodeType := "e2-standard-8" }
  else f

/-- preCreateChecks from src/unnamed/part_000 lines 100-121: the four
configuration checks in source order, then the default node type
selection. -/
def preCreateChecks (f : NodeCreateFlags) : Except PreCreateErr NodeCreateFlags :=
  if f.useLatestAvalanchegoVersion ∧ f.useAvalanchegoVersionFromSubnet ≠ "" then
    Except.error PreCreateErr.versionConflict
  else if f.useAWS ∧ f.useGCP then
    Except.error PreCreateErr.cloudConflict
  else if ¬f.useAWS ∧ f.awsProfile ≠ AWSDefaultCredential then
    Except.error PreCreateErr.profileWithoutAWS
  else if f.cmdLineRegion.length ≠ f.numNodes.length then
    Except.error PreCreateErr.regionNodeCountMismatch
  else
    Except.ok (setDefaultNodeType f)

/-- constants.AWSCloudService and constants.GCPCloudService (constants
package not among the sources; only their distinctness matters). -/
def AWSCloudService : String := "Amazon Web Services"

/-- See AWSCloudService. -/
def GCPCloudService : String := "Google Cloud Platform"

/-- The cloud-provider and infra collaborator calls recorded by the
createNodes model, in the order createNodes can reach them. -/
inductive CollaboratorCall where
  | awsCloudConfig
  | awsCreateInstances
  | gcpConfig
  | gcpCreateInstances
deriving DecidableEq, Repr

/-- The failures of the createNodes prefix. -/
inductive CreateNodesError where
  | preCreate (e : PreCreateErr)
  | other (msg : String)
deriving DecidableEq, Repr

/-- The collaborators createNodes consults before and at its first cloud
call: network selection and cloud-service prompts, local terraform presence
and local filesystem/user lookups, then the cloud configuration and infra
apply calls. The work past the first infra call does not matter for the
claims and is folded into restOutcome. -/
structure NodeCreateEnv where
  networkResult : Except String Unit
  cloudServiceAnswer : Except String String
  terraformInstalled : Bool
  localOk : Except String Unit
  awsConfigResult : Except String Unit
  gcpConfigResult : Except String Unit
  restOutcome : Except String Unit
deriving Repr

/-- setCloudService from src/unnamed/part_000 lines 575-589: the cloud flags
decide, otherwise the operator is prompted. -/
def setCloudService (f : NodeCreateFlags) (env : NodeCreateEnv) :
    Except String String :=
  if f.useAWS then Except.ok AWSCloudService
  else if f.useGCP then Except.ok GCPCloudService
  else env.cloudServiceAnswer

/-- The prefix of createNodes (src/unnamed/part_000 lines 123-212) with a
trace of the cloud/infra collaborator calls it performs: preCreateChecks
first (line 124), then network selection, cloud service selection, the GCP
flag cross-checks, the terraform install check and local preparations -
none of which touch the cloud - and only then the per-provider cloud
configuration and instance creation calls. The remainder of the function is
modelled by env.restOutcome. -/
def createNodesModel (f : NodeCreateFlags) (env : NodeCreateEnv) :
    Except CreateNodesError Unit × List CollaboratorCall :=
  match preCreateChecks f with
  | Except.error e => (Except.error (CreateNodesError.preCreate e), [])
  | Except.ok f2 =>
    match env.networkResult with
    | Except.error m => (Except.error (CreateNodesError.other m), [])
    | Except.ok _ =>
      match setCloudService f2 env with
      | Except.error m => (Except.error (CreateNodesError.other m), [])
      | Except.ok cloudService =>
        if cloudService ≠ GCPCloudService ∧ f2.cmdLineGCPCredentialsPath ≠ "" then
          (Except.error (CreateNodesError.other "set to use GCP credentials but cloud option is not GCP"), [])
        else if cloudService ≠ GCPCloudService ∧ f2.cmdLineGCPProjectName ≠ "" then
          (Except.error (CreateNodesError.other "set to use GCP project but cloud option is not GCP"), [])
        else if ¬env.terraformInstalled then
          (Except.error (CreateNodesError.other "terraform not installed"), [])
        else
          match env.localOk with
          | Except.error m => (Except.error (CreateNodesError.other m), [])
          | Except.ok _ =>
            if cloudService = AWSCloudService then
              match env.awsConfigResult with
              | Except.error m =>
                  (Except.error (CreateNodesError.other m), [CollaboratorCall.awsCloudConfig])
              | Except.ok _ =>
                  match env.restOutcome with
                  | Except.error m =>
                      (Except.error (CreateNodesError.other m),
                       [CollaboratorCall.awsCloudConfig, CollaboratorCall.awsCreateInstances])
                  | Except.ok _ =>
                      (Except.ok (),
                       [CollaboratorCall.awsCloudConfig, CollaboratorCall.awsCreateInstances])
            else
              match env.gcpConfigResult with
              | Except.error m =>
                  (Except.error (CreateNodesError.other m), [CollaboratorCall.gcpConfig])
              | Except.ok _ =>
                  match env.restOutcome with
                  | Except.error m =>
                      (Except.error (CreateNodesError.other m),
                       [CollaboratorCall.gcpConfig, CollaboratorCall.gcpCreateInstances])
                  | Except.ok _ =>
                      (Except.ok (),
                       [CollaboratorCall.gcpConfig, CollaboratorCall.gcpCreateInstances])

/-! ## Node result aggregate, reachability waiter and bootstrap fan-out
(src/unnamed/part_000, waitForHosts lines 621-637 and createNodes
lines 259-313) -/

/-- models.Host as used by the fan-outs (the models package file with this
type is not among the sources; NodeID is the identifier the fan-outs key
their results by). -/
structure Host where
  NodeID : String
deriving DecidableEq, Repr

/-- Modelled from the spec: the Node Result Aggregate, a mapping from node
identifier to an error, written at most once per owning task and read only
after the join (spec section 3); the models.NodeResults type itself is not
among the sources. Entries are kept in write order. -/
structure NodeResults where
  results : List (String × String)
deriving DecidableEq, Repr

/-- Modelled from the spec: AddResult records one (node identifier, error)
entry. -/
def NodeResults.addResult (nr : NodeResults) (nodeID err : String) : NodeResults :=
  { nr with results := nr.results ++ [(nodeID, err)] }

/-- Modelled from the spec: Len returns the number of recorded entries. -/
def NodeResults.len (nr : NodeResults) : Nat := nr.results.length

/-- Modelled from the spec: the node identifiers present in the aggregate. -/
def NodeResults.nodeIDs (nr : NodeResults) : List String :=
  nr.results.map Prod.fst

/-- Modelled from the spec: HasErrors is true when some recorded entry
carries an error; every entry written by the two fan-outs carries one. -/
def NodeResults.hasErrors (nr : NodeResults) : Bool :=
  !nr.results.isEmpty

/-- waitForHosts from src/unnamed/part_000 lines 621-637: one task per host,
each adding an entry to the aggregate only when WaitForSSHShell fails
(waitErr h models that failure); barrier-joined before the aggregate is
returned. Each task owns a distinct entry, so the join is modelled by a fold
over the hosts. -/
def waitForHosts (waitErr : Host → Option String) (hosts : List Host) :
    NodeResults :=
  hosts.foldl
    (fun nr h =>
      match waitErr h with
      | some e => nr.addResult h.NodeID e
      | none => nr)
    { results := [] }

/-- The five remote steps of the per-host bootstrap goroutine of createNodes
(src/unnamed/part_000 lines 263-285), in their fixed order. -/
inductive BootstrapStep where
  | connect
  | stakingCertAndKey
  | setupNode
  | setupBuildEnv
  | setupCLIFromSource
deriving DecidableEq, Repr

/-- The fixed per-host step sequence. -/
def bootstrapSequence : List BootstrapStep :=
  [BootstrapStep.connect, BootstrapStep.stakingCertAndKey,
   BootstrapStep.setupNode, BootstrapStep.setupBuildEnv,
   BootstrapStep.setupCLIFromSource]

/-- The outcome of each step of the bootstrap of one host, as decided by the
host and the remote side: none models success, some an error. -/
structure HostStepErrs where
  connect : Option String
  stakingCertAndKey : Option String
  setupNode : Option String
  setupBuildEnv : Option String
  setupCLIFromSource : Option String
deriving DecidableEq, Repr

/-- The step outcome selected by a step tag. -/
def HostStepErrs.get (e : HostStepErrs) : BootstrapStep → Option String
  | BootstrapStep.connect => e.connect
  | BootstrapStep.stakingCertAndKey => e.stakingCertAndKey
  | BootstrapStep.setupNode => e.setupNode
  | BootstrapStep.setupBuildEnv => e.setupBuildEnv
  | BootstrapStep.setupCLIFromSource => e.setupCLIFromSource

/-- The body of the per-host goroutine of createNodes (src/unnamed/part_000
lines 263-285): Connect, provideStakingCertAndKey (key generation plus
upload), RunSSHSetupNode, RunSSHSetupBuildEnv, RunSSHSetupCLIFromSource,
each guarded by an early return on error. Returns the error recorded for the
host (none when all steps pass) together with the steps that were
executed. -/
def hostBootstrapOutcome (e : HostStepErrs) :
    Option String × List BootstrapStep :=
  match e.connect with
  | some err => (some err, [BootstrapStep.connect])
  | none =>
    match e.stakingCertAndKey with
    | some err => (some err, [BootstrapStep.connect, BootstrapStep.stakingCertAndKey])
    | none =>
      match e.setupNode with
      | some err =>
          (some err,
           [BootstrapStep.connect, BootstrapStep.stakingCertAndKey,
            BootstrapStep.setupNode])
      | none =>
        match e.setupBuildEnv with
        | some err =>
            (some err,
             [BootstrapStep.connect, BootstrapStep.stakingCertAndKey,
              BootstrapStep.setupNode, BootstrapStep.setupBuildEnv])
        | none =>
          match e.setupCLIFromSource with
          | some err => (some err, bootstrapSequence)
          | none => (none, bootstrapSequence)

/-- The bootstrap fan-out of createNodes (src/unnamed/part_000 lines
259-287): one goroutine per host, each adding its (node identifier, error)
to the shared aggregate only when a step failed, joined by the wait group.
Each goroutine owns a distinct entry, so the joined aggregate is modelled by
a fold over the hosts. -/
def createNodesFanout (stepErrs : Host → HostStepErrs) (hosts : List Host) :
    NodeResults :=
  hosts.foldl
    (fun nr h =>
      match (hostBootstrapOutcome (stepErrs h)).1 with
      | some err => nr.addResult h.NodeID err
      | none => nr)
    { results := [] }

/-- The failures createNodes can return after the join (src/unnamed/part_000
lines 299-312): the devnet setup error returned as-is at line 302, and the
single aggregate error naming every failed node at line 307. -/
inductive CreateNodesTailError where
  | devnetSetup (msg : String)
  | failedToDeploy (failed : List (String × String))
deriving DecidableEq, Repr

/-- The tail of createNodes after the join (src/unnamed/part_000 lines
292-312): the per-node status lines are printed, then - only when the
selected network is a devnet - setupDevnet runs and its failure is returned
directly (lines 299-304; the setupDevnet body is not among the sources and
is given by its result), and only past that the aggregate check: a single
aggregate error naming every failed node when any host errored, success
otherwise. Succeeded hosts are never rolled back. The scrutinee folds the
devnet guard and the setup call into one expression: on a non-devnet run
the branch is skipped and control falls through to the aggregate check
exactly as in the source. -/
def createNodesBootstrapResult (stepErrs : Host → HostStepErrs)
    (hosts : List Host) (isDevnet : Bool)
    (setupDevnetResult : Except String Unit) :
    Except CreateNodesTailError Unit :=
  let wgResults := createNodesFanout stepErrs hosts
  match (if isDevnet then setupDevnetResult else Except.ok ()) with
  | Except.error m => Except.error (CreateNodesTailError.devnetSetup m)
  | Except.ok _ =>
      if wgResults.hasErrors then
        Except.error (CreateNodesTailError.failedToDeploy wgResults.results)
      else Except.ok ()

/-! ## Numeric prompt captures (src/pkg/models/nodeConfig.go, prompts
package part: CaptureUint64 lines 421-432, CapturePositiveBigInt lines
505-522) -/

/-- Go digit value of a character for strconv parsing: decimal digits and
the letters for bases above ten. -/
def goDigitVal (c : Char) : Option Nat :=
  if 48 ≤ c.toNat ∧ c.toNat ≤ 57 then some (c.toNat - 48)
  else if 97 ≤ c.toNat ∧ c.toNat ≤ 122 then some (c.toNat - 87)
  else if 65 ≤ c.toNat ∧ c.toNat ≤ 90 then some (c.toNat - 55)
  else none

/-- Accumulating digit parse in a given base; any character that is not a
digit of the base fails. -/
def goParseDigitsAux (base : Nat) (acc : Nat) : List Char → Option Nat
  | [] => some acc
  | c :: cs =>
      match goDigitVal c with
      | some d => if d < base then goParseDigitsAux base (acc * base + d) cs else none
      | none => none

/-- Digit-string parse in a given base, failing on the empty string. -/
def goParseDigits (base : Nat) (cs : List Char) : Option Nat :=
  if cs.isEmpty then none else goParseDigitsAux base 0 cs

/-- strconv.ParseUint with base argument 0: the base is detected from the
literal prefix (0x/0X hexadecimal, 0o/0O octal, 0b/0B binary, a remaining
leading 0 legacy octal, decimal otherwise); no sign is permitted. Underscore
separators, which Go additionally allows between base-0 digits, are not
modelled (none of the inputs of interest contain them, and omitting them
only shrinks the accepted set of spellings, not the set of values). -/
def goParseUintBase0 : List Char → Option Nat
  | [] => none
  | '0' :: rest =>
      match rest with
      | [] => some 0
      | c :: rest2 =>
          if c = 'x' ∨ c = 'X' then goParseDigits 16 rest2
          else if c = 'o' ∨ c = 'O' then goParseDigits 8 rest2
          else if c = 'b' ∨ c = 'B' then goParseDigits 2 rest2
          else goParseDigits 8 (c :: rest2)
  | cs => goParseDigits 10 cs

/-- strconv.ParseUint(s, 0, 64) as called by CaptureUint64: base-0 parse
plus the unsigned 64-bit range check. -/
def goParseUint64 (s : String) : Option Nat :=
  match goParseUintBase0 s.data with
  | some v => if v < 2 ^ 64 then some v else none
  | none => none

/-- big.Int SetString in base 10 as called by CapturePositiveBigInt: an
optional sign followed by a non-empty decimal digit string, with no range
bound (arbitrary precision). -/
def goParseBigInt10 (s : String) : Option Int :=
  match s.data with
  | '-' :: rest => (goParseDigits 10 rest).map (fun n => -(n : Int))
  | '+' :: rest => (goParseDigits 10 rest).map (fun n => (n : Int))
  | cs => (goParseDigits 10 cs).map (fun n => (n : Int))

/-- Modelled from the spec: the validator validateBiggerThanZero wired to
CaptureUint64 at src/pkg/models/nodeConfig.go line 424 is not among the
sources; its name states the accepted set: the entry must parse as an
unsigned 64-bit integer whose value is bigger than zero. -/
def validateBiggerThanZero (input : String) : Bool :=
  match goParseUint64 input with
  | some v => decide (0 < v)
  | none => false

/-- Modelled from the spec: the validator validatePositiveBigInt wired to
CapturePositiveBigInt at src/pkg/models/nodeConfig.go line 508 is not among
the sources; per the numeric semantics of the spec (arbitrary-precision
non-negative balances) it requires the entry to parse as a base-10 big
integer that is not negative. -/
def validatePositiveBigInt (input : String) : Bool :=
  match goParseBigInt10 input with
  | some n => decide (0 ≤ n)
  | none => false

/-- The failure modes of a prompt capture: the operator cancelling the
prompt, the validator refusing the entry (promptui never returns an entry
its validator rejects), and a parse failure after validation. -/
inductive PromptErr where
  | cancelled
  | rejected
  | parse (msg : String)
deriving DecidableEq, Repr

/-- CaptureUint64 from src/pkg/models/nodeConfig.go lines 421-432: the
prompt only returns an entry accepted by validateBiggerThanZero and parses
it with strconv.ParseUint(s, 0, 64). The entry typed by the operator is the input. -/
def CaptureUint64 (input : String) : Except PromptErr Nat :=
  if validateBiggerThanZero input then
    match goParseUint64 input with
    | some v => Except.ok v
    | none => Except.error (PromptErr.parse "ParseUint")
  else Except.error PromptErr.rejected

/-- CapturePositiveBigInt from src/pkg/models/nodeConfig.go lines 505-522:
the prompt only returns an entry accepted by validatePositiveBigInt and
parses it with big.Int SetString in base 10. -/
def CapturePositiveBigInt (input : String) : Except PromptErr Int :=
  if validatePositiveBigInt input then
    match goParseBigInt10 input with
    | some n => Except.ok n
    | none => Except.error (PromptErr.parse "SetString")
  else Except.error PromptErr.rejected

/-- The chain-id acquisition of CallCreate (cmd/subnetcmd/create.go lines
211-218, reached when the VM is Subnet-EVM and no genesis file was given):
the flag value 0 counts as unset and sends the operator to the CaptureUint64
prompt; any other flag value is used directly. -/
def chainIDStep (flagEvmChainID : Nat) (promptInput : String) :
    Except PromptErr Nat :=
  if flagEvmChainID = 0 then CaptureUint64 promptInput
  else Except.ok flagEvmChainID

/-! ## The subnet create command (cmd/subnetcmd/create.go, CallCreate
lines 108-551)

The wizard prompts are modelled by a list of operator answers consumed in
order; an exhausted list models a cancelled prompt. Selection prompts
(promptui Select) return the chosen option text, which CallCreate compares
against locally scoped literals. Option labels that contain an apostrophe in
the source are spelled here without it; only their equality matters. -/

/-- models.SubnetEvm (the models package file defining the VM type constants
is not among the sources; CallCreate only compares the value for
equality). -/
def SubnetEvm : String := "Subnet-EVM"

/-- models.CustomVM; see SubnetEvm. -/
def CustomVM : String := "Custom VM"

/-- getVMFromFlag from cmd/subnetcmd/create.go lines 615-623. -/
def getVMFromFlag (useSubnetEvm useCustom : Bool) : String :=
  if useSubnetEvm then SubnetEvm
  else if useCustom then CustomVM
  else ""

/-- cmdflags.EnsureMutuallyExclusive (the cmd/flags package is not among the
sources): true when at most one of the given flags is set. -/
def EnsureMutuallyExclusive (flags : List Bool) : Bool :=
  decide ((flags.filter (fun b => b)).length ≤ 1)

/-- The flag set of the subnet create command, cmd/subnetcmd/create.go
lines 34-52; EvmChainID is Go uint64. -/
structure CreateFlags where
  GenesisFile : String
  UseSubnetEvm : Bool
  EvmVersion : String
  EvmChainID : Nat
  EvmToken : String
  EvmDefaults : Bool
  UseCustom : Bool
  UseLatestReleasedEvmVersion : Bool
  UseLatestPreReleasedEvmVersion : Bool
  ForceCreate : Bool
  vmFile : String
  useRepo : Bool
  useTeleporter : Bool
  useWarp : Bool
  CustomVMRepoURL : String
  CustomVMBranch : String
  CustomVMBuildScript : String
deriving DecidableEq, Repr

/-- The error exits of CallCreate, in source order of first occurrence. -/
inductive CreateError where
  | configAlreadyExists
  | invalidSubnetName
  | tooManyVMsSelected
  | mutuallyExclusiveVersionOptions
  | mutuallyVMConfigOptions
  | invalidVersionString (v : String)
  | genesisNotEVMFormat
  | prompt (e : PromptErr)
  | collaborator (msg : String)
  | warpRequiredForTeleporter
  | notImplemented
deriving DecidableEq, Repr

/-- The persistent outputs of the subnet create command. -/
inductive CreateEffect where
  | wroteGenesisFile (subnetName : String)
  | createdSidecar (subnetName : String)
deriving DecidableEq, Repr

/-- The collaborators CallCreate consults, and the prompt answers of the operator consumed in order. Collaborators whose internals are out of scope
(vm.GetVMVersion, vm.GenerateAllowList, vm.CustomizeFeeConfig,
utils.PathIsSubnetEVMGenesis, teleporter.GetInfo, semver.IsValid) are given
by their results. -/
structure CreateEnv where
  genesisExists : Bool
  pathIsSubnetEVMGenesis : Except String Bool
  semverValid : String → Bool
  getVMVersionResult : Except String String
  generateAllowListOk : Except String Unit
  customizeFeeConfigOk : Except String Unit
  teleporterFlagChanged : Bool
  teleporterInfoResult : Except String Unit
  prompts : List String

/-- Take the next answer of the operator; an exhausted answer list models a
cancelled prompt. -/
def takeAnswer : List String → Except CreateError (String × List String)
  | [] => Except.error (CreateError.prompt PromptErr.cancelled)
  | a :: rest => Except.ok (a, rest)

/-- app.Prompt.CaptureString (validateNonEmpty): the prompt only returns a
non-empty entry. -/
def captureNonEmptyString (s : List String) :
    Except CreateError (String × List String) := do
  let (a, rest) ← takeAnswer s
  if a = "" then Except.error (CreateError.prompt PromptErr.rejected)
  else Except.ok (a, rest)

/-- app.Prompt.CaptureUint64 consuming from the answer list. -/
def captureUint64Answer (s : List String) :
    Except CreateError (Nat × List String) := do
  let (a, rest) ← takeAnswer s
  match CaptureUint64 a with
  | Except.ok v => Except.ok (v, rest)
  | Except.error e => Except.error (CreateError.prompt e)

/-- Guard helper for the early error returns of CallCreate. -/
def errIf (b : Bool) (e : CreateError) : Except CreateError Unit :=
  if b then Except.error e else Except.ok ()

/-- Propagate a collaborator result, wrapping its failure. -/
def collab {α : Type} (r : Except String α) : Except CreateError α :=
  match r with
  | Except.error m => Except.error (CreateError.collaborator m)
  | Except.ok v => Except.ok v

/-- The "Explain the difference" option text, shared by the selection loops of
the wizard. -/
def explainOption : String := "Explain the difference"

/-- The VM selection loop of CallCreate (create.go lines 144-172): Subnet-EVM
and Custom VM pick the type, the explain option re-prompts, and any other
returned text leaves the type string empty. -/
def vmTypePromptLoop : List String → Except CreateError (String × List String)
  | [] => Except.error (CreateError.prompt PromptErr.cancelled)
  | option :: rest =>
      if option = "Subnet-EVM" then Except.ok (SubnetEvm, rest)
      else if option = "Custom VM" then Except.ok (CustomVM, rest)
      else if option = explainOption then vmTypePromptLoop rest
      else Except.ok ("", rest)

/-- Option labels of the gas token stage (create.go lines 223-244, 262-263);
the native token label is spelled without its apostrophe. -/
def nativeTokenOption : String := "Its own Native Token"

/-- See nativeTokenOption. -/
def externalTokenOption : String := "A token from another blockchain"

/-- See nativeTokenOption. -/
def customAllocationOption : String := "Custom allocation (configure exact amount to relayer)"

/-- See nativeTokenOption. -/
def dynamicSupplyOption : String := "Yes, I want to be able to mint additional tokens on my blockchain. (Native Minter Precompile ON)"

/-- The gas token stage of CallCreate (create.go lines 220-287): the native
branch prompts for the token symbol, the allocation choice (with address and
amount prompts on the custom allocation), and the supply choice (with the
native minter allow list on the dynamic supply); the external branch records
the external gas token; the explain branch re-prompts. Returns the token
symbol and the externalGasToken flag. The syntax validation of the address entry
is a collaborator and is elided. -/
def gasTokenLoop (env : CreateEnv) (evmToken0 : String) :
    List String → Except CreateError ((String × Bool) × List String)
  | [] => Except.error (CreateError.prompt PromptErr.cancelled)
  | option :: rest =>
      if option = nativeTokenOption then do
        let (tok, s1) ← captureNonEmptyString rest
        let (allocOption, s2) ← takeAnswer s1
        let s3 ←
          if allocOption = customAllocationOption then do
            let (_, sa) ← takeAnswer s2
            let (_, sb) ← captureUint64Answer sa
            Except.ok sb
          else Except.ok s2
        let (supplyOption, s4) ← takeAnswer s3
        if supplyOption = dynamicSupplyOption then
          match env.generateAllowListOk with
          | Except.error m => Except.error (CreateError.collaborator m)
          | Except.ok _ => Except.ok ((tok, false), s4)
        else Except.ok ((tok, false), s4)
      else if option = externalTokenOption then Except.ok ((evmToken0, true), rest)
      else if option = explainOption then gasTokenLoop env evmToken0 rest
      else Except.ok ((evmToken0, false), rest)

/-- Option labels of the fee stages (create.go lines 291, 321, 342). -/
def customizeFeeOption : String := "Customize fee config"

/-- See customizeFeeOption. -/
def changeFeeSettingsOption : String := "I want to be able to adjust gas pricing if necessary - recommended for production (Fee Manager Precompile ON)"

/-- See customizeFeeOption. -/
def distributeFeesOption : String := "I want to customize accumulated gas fees distribution (Reward Manager Precompile ON)"

/-- The fee profile loop (create.go lines 297-319): customize calls the fee
config collaborator, explain re-prompts, the three preset profiles fall
through. -/
def feeConfigLoop (env : CreateEnv) : List String → Except CreateError (List String)
  | [] => Except.error (CreateError.prompt PromptErr.cancelled)
  | option :: rest =>
      if option = customizeFeeOption then
        match env.customizeFeeConfigOk with
        | Except.error m => Except.error (CreateError.collaborator m)
        | Except.ok _ => Except.ok rest
      else if option = explainOption then feeConfigLoop env rest
      else Except.ok rest

/-- The fee manager loop (create.go lines 323-340): only the
change-fee-settings case acts; the switch has no case for the other options,
the explain option included, so every other answer breaks out. -/
def feeChangeLoop (env : CreateEnv) : List String → Except CreateError (List String)
  | [] => Except.error (CreateError.prompt PromptErr.cancelled)
  | option :: rest =>
      if option = changeFeeSettingsOption then
        match env.generateAllowListOk with
        | Except.error m => Except.error (CreateError.collaborator m)
        | Except.ok _ => Except.ok rest
      else Except.ok rest

/-- The reward manager loop (create.go lines 345-364). -/
def rewardManagerLoop (env : CreateEnv) : List String → Except CreateError (List String)
  | [] => Except.error (CreateError.prompt PromptErr.cancelled)
  | option :: rest =>
      if option = distributeFeesOption then
        match env.generateAllowListOk with
        | Except.error m => Except.error (CreateError.collaborator m)
        | Except.ok _ => Except.ok rest
      else if option = explainOption then rewardManagerLoop env rest
      else Except.ok rest

/-- Option labels of the interoperability stage (create.go lines
380-381). -/
def interoperatingBlockchainOption : String := "Yes, I want my blockchain to be able to interoperate with other blockchains and the C-Chain"

/-- See interoperatingBlockchainOption. -/
def isolatedBlockchainOption : String := "No, I want to run my blockchain isolated"

/-- The teleporter selection loop (create.go lines 384-402); an unknown
answer breaks out leaving the flag as it was. -/
def teleporterPromptLoop (cur : Bool) :
    List String → Except CreateError (Bool × List String)
  | [] => Except.error (CreateError.prompt PromptErr.cancelled)
  | option :: rest =>
      if option = interoperatingBlockchainOption then Except.ok (true, rest)
      else if option = isolatedBlockchainOption then Except.ok (false, rest)
      else if option = explainOption then teleporterPromptLoop cur rest
      else Except.ok (cur, rest)

/-- Option labels of the permissioning stage (create.go lines 417-418,
432, 455). -/
def approvedCanSubmitTransactionsOption : String := "I want only approved addresses to submit transactions on my blockchain. (Transaction Allow List ON)"

/-- See approvedCanSubmitTransactionsOption. -/
def approvedCanDeployContractsOption : String := "I want only approved addresses to deploy smart contracts on my blockchain. (Smart Contract Deployer Allow List ON)"

/-- The transaction allow list loop (create.go lines 434-453). -/
def txAllowListLoop (env : CreateEnv) : List String → Except CreateError (List String)
  | [] => Except.error (CreateError.prompt PromptErr.cancelled)
  | option :: rest =>
      if option = approvedCanSubmitTransactionsOption then
        match env.generateAllowListOk with
        | Except.error m => Except.error (CreateError.collaborator m)
        | Except.ok _ => Except.ok rest
      else if option = explainOption then txAllowListLoop env rest
      else Except.ok rest

/-- The contract deployer allow list loop (create.go lines 457-476). -/
def deployerAllowListLoop (env : CreateEnv) : List String → Except CreateError (List String)
  | [] => Except.error (CreateError.prompt PromptErr.cancelled)
  | option :: rest =>
      if option = approvedCanDeployContractsOption then
        match env.generateAllowListOk with
        | Except.error m => Except.error (CreateError.collaborator m)
        | Except.ok _ => Except.ok rest
      else if option = explainOption then deployerAllowListLoop env rest
      else Except.ok rest

/-- The permissioning loop (create.go lines 421-482): Yes runs the two allow
list sub-loops, explain re-prompts, No (or anything else) breaks out. -/
def permissioningLoop (env : CreateEnv) : List String → Except CreateError (List String)
  | [] => Except.error (CreateError.prompt PromptErr.cancelled)
  | option :: rest =>
      if option = "Yes" then do
        let s1 ← txAllowListLoop env rest
        deployerAllowListLoop env s1
      else if option = explainOption then permissioningLoop env rest
      else Except.ok rest

/-- CallCreate from cmd/subnetcmd/create.go lines 108-551 (the same code
appears in src/unnamed/part_001): the precondition checks, the VM type
selection, the version resolution, the chain id, gas token, fee,
interoperability and permissioning wizard stages - and then the unconditional
return nil of line 485, which precedes the switch on the VM type, so the
genesis serialization and the sidecar record of lines 487-550 are dead code.
The returned list holds the persistent outputs the run performed. -/
def CallCreateModel (flags0 : CreateFlags) (env : CreateEnv)
    (subnetName : String) : Except CreateError (List CreateEffect) :=
  errIf (env.genesisExists && !flags0.ForceCreate) CreateError.configAlreadyExists >>= fun _ =>
  (match checkInvalidSubnetNames subnetName.data with
   | Except.error _ => Except.error CreateError.invalidSubnetName
   | Except.ok _ => Except.ok ()) >>= fun _ =>
  let flags :=
    if flags0.CustomVMRepoURL != "" || flags0.CustomVMBranch != "" || flags0.CustomVMBuildScript != ""
    then { flags0 with UseCustom := true } else flags0
  errIf (!(EnsureMutuallyExclusive [flags.UseSubnetEvm, flags.UseCustom]))
      CreateError.tooManyVMsSelected >>= fun _ =>
  errIf (!(EnsureMutuallyExclusive
        [flags.UseLatestReleasedEvmVersion,
         flags.UseLatestPreReleasedEvmVersion,
         flags.EvmVersion != ""]))
      CreateError.mutuallyExclusiveVersionOptions >>= fun _ =>
  errIf (flags.GenesisFile != "" &&
        (flags.EvmChainID != 0 || flags.EvmToken != "" || flags.EvmDefaults))
      CreateError.mutuallyVMConfigOptions >>= fun _ =>
  let subnetType0 := getVMFromFlag flags.UseSubnetEvm flags.UseCustom
  (if subnetType0 == "" then vmTypePromptLoop env.prompts
   else Except.ok (subnetType0, env.prompts)) >>= fun p1 =>
  let subnetType := p1.1
  let s0 := p1.2
  let evmVersionA := if flags.UseLatestReleasedEvmVersion then "latest" else flags.EvmVersion
  let evmVersionB := if flags.UseLatestPreReleasedEvmVersion then "pre-release" else evmVersionA
  errIf (evmVersionB != "latest" && evmVersionB != "pre-release" &&
        evmVersionB != "" && !(env.semverValid evmVersionB))
      (CreateError.invalidVersionString evmVersionB) >>= fun _ =>
  (if flags.GenesisFile != "" then collab env.pathIsSubnetEVMGenesis
   else Except.ok false) >>= fun genesisFileIsEVM =>
  errIf (subnetType == SubnetEvm && flags.GenesisFile != "" && !genesisFileIsEVM)
      CreateError.genesisNotEVMFormat >>= fun _ =>
  (if subnetType == SubnetEvm then collab env.getVMVersionResult
   else Except.ok evmVersionB) >>= fun _evmVersionC =>
  (if subnetType == SubnetEvm && flags.GenesisFile == "" && flags.EvmChainID == 0 then
    captureUint64Answer s0
   else Except.ok (flags.EvmChainID, s0)) >>= fun p2 =>
  let s1 := p2.2
  (if subnetType == SubnetEvm && flags.GenesisFile == "" then
    gasTokenLoop env flags.EvmToken s1
   else Except.ok ((flags.EvmToken, false), s1)) >>= fun p3 =>
  let externalGasToken := p3.1.2
  let s2 := p3.2
  (if subnetType == SubnetEvm && flags.GenesisFile == "" then feeConfigLoop env s2
   else Except.ok s2) >>= fun s3 =>
  (if subnetType == SubnetEvm && flags.GenesisFile == "" then feeChangeLoop env s3
   else Except.ok s3) >>= fun s4 =>
  (if subnetType == SubnetEvm && flags.GenesisFile == "" then rewardManagerLoop env s4
   else Except.ok s4) >>= fun s5 =>
  (if subnetType == SubnetEvm || genesisFileIsEVM then
    let t1 := if externalGasToken then true else flags.useTeleporter
    let t2 := if flags.EvmDefaults then true else t1
    if !env.teleporterFlagChanged && !externalGasToken then teleporterPromptLoop t2 s5
    else Except.ok (t2, s5)
   else Except.ok (flags.useTeleporter, s5)) >>= fun p4 =>
  let useTeleporter := p4.1
  let s6 := p4.2
  errIf ((subnetType == SubnetEvm || genesisFileIsEVM) &&
        useTeleporter && !flags.useWarp)
      CreateError.warpRequiredForTeleporter >>= fun _ =>
  (if (subnetType == SubnetEvm || genesisFileIsEVM) && useTeleporter then
    collab env.teleporterInfoResult
   else Except.ok ()) >>= fun _ =>
  (if subnetType == SubnetEvm && flags.GenesisFile == "" then permissioningLoop env s6
   else Except.ok s6) >>= fun _s7 =>
  Except.ok []

/-! ## Concrete inputs used by the witnesses and counterexamples -/

/-- A subnet create invocation choosing Subnet-EVM by flag, with no
pre-supplied genesis. -/
def exampleCreateFlags : CreateFlags :=
  { GenesisFile := "", UseSubnetEvm := true, EvmVersion := "", EvmChainID := 0,
    EvmToken := "", EvmDefaults := false, UseCustom := false,
    UseLatestReleasedEvmVersion := false, UseLatestPreReleasedEvmVersion := false,
    ForceCreate := false, vmFile := "", useRepo := false, useTeleporter := false,
    useWarp := true, CustomVMRepoURL := "", CustomVMBranch := "",
    CustomVMBuildScript := "" }

/-- An environment in which every collaborator succeeds and the operator
answers every wizard stage: chain id 42, a native gas token with the default
allocation and fixed supply, a preset fee profile, no fee manager, burned
fees, an isolated blockchain and no permissioning. -/
def exampleCreateEnv : CreateEnv :=
  { genesisExists := false, pathIsSubnetEVMGenesis := Except.ok false,
    semverValid := fun _ => false, getVMVersionResult := Except.ok "v0.6.0",
    generateAllowListOk := Except.ok (), customizeFeeConfigOk := Except.ok (),
    teleporterFlagChanged := false, teleporterInfoResult := Except.ok (),
    prompts := ["42", nativeTokenOption, "TST", "1m to new key",
                "fixed supply", "Low disk use", "keep fee settings",
                "burn fees", isolatedBlockchainOption, "No"] }

/-- A node create invocation with one region and an empty node-count list
(a region/node-count mismatch) that additionally selects both cloud
providers. -/
def mismatchConflictFlags : NodeCreateFlags :=
  { useLatestAvalanchegoVersion := false, useAvalanchegoVersionFromSubnet := "",
    useAWS := true, useGCP := true, awsProfile := "default",
    cmdLineRegion := ["us-east-1"], numNodes := [], nodeType := "default",
    cmdLineGCPCredentialsPath := "", cmdLineGCPProjectName := "" }

/-- The same mismatching invocation with only AWS selected, so that the
mismatch check is the first one to fail. -/
def mismatchOnlyFlags : NodeCreateFlags :=
  { mismatchConflictFlags with useGCP := false }

/-- A node create environment whose collaborators all succeed. -/
def stubNodeCreateEnv : NodeCreateEnv :=
  { networkResult := Except.ok (), cloudServiceAnswer := Except.ok AWSCloudService,
    terraformInstalled := true, localOk := Except.ok (),
    awsConfigResult := Except.ok (), gcpConfigResult := Except.ok (),
    restOutcome := Except.ok () }

/-- A cloud configuration registering key pair kp1. -/
def exampleCloudConfigA : CloudConfig :=
  { InstanceIDs := ["i-1"], PublicIPs := ["1.2.3.4"], Region := "us-east-1",
    KeyPair := "kp1", SecurityGroup := "sg-1",
    CertFilePath := "/home/user/.ssh/kp1-cert.pem", ImageID := "ami-1" }

/-- A second registration of kp1 supplying a different certificate path. -/
def exampleCloudConfigB : CloudConfig :=
  { exampleCloudConfigA with CertFilePath := "/tmp/other-cert.pem" }

/-- A host that bootstraps cleanly. -/
def hostA : Host := { NodeID := "NodeID-A" }

/-- A host whose staking-key upload step fails. -/
def hostB : Host := { NodeID := "NodeID-B" }

/-- Per-host step outcomes: every step of every host succeeds except the
staking certificate and key step of hostB. -/
def exampleStepErrs : Host → HostStepErrs := fun h =>
  if h.NodeID = "NodeID-B" then
    { connect := none, stakingCertAndKey := some "upload failed",
      setupNode := none, setupBuildEnv := none, setupCLIFromSource := none }
  else
    { connect := none, stakingCertAndKey := none, setupNode := none,
      setupBuildEnv := none, setupCLIFromSource := none }

/-- Reachability outcomes: hostB times out, every other host is
reachable. -/
def exampleWaitErr : Host → Option String := fun h =>
  if h.NodeID = "NodeID-B" then some "ssh timeout" else none

/-! ## Helper lemmas -/

/-- Successful Except bind decomposition. -/
theorem except_bind_ok {ε α β : Type} (x : Except ε α) (f : α → Except ε β)
    (b : β) (h : x >>= f = Except.ok b) :
    ∃ a, x = Except.ok a ∧ f a = Except.ok b := by
  cases x with
  | error e =>
      change Except.error e = Except.ok b at h
      exact Except.noConfusion h
  | ok a => exact ⟨a, rfl, h⟩

/-- The per-rune condition of checkInvalidSubnetNames is false exactly on
ASCII letters, decimal digits and the space. -/
theorem subnetNameChar_ok_iff (r : Char) :
    (r.toNat > 127 || !(goIsLetterASCII r || goIsNumberASCII r || r == ' ')) = false ↔
      ((65 ≤ r.toNat ∧ r.toNat ≤ 90) ∨ (97 ≤ r.toNat ∧ r.toNat ≤ 122) ∨
       (48 ≤ r.toNat ∧ r.toNat ≤ 57) ∨ r = ' ') := by
  by_cases h : r = ' '
  · subst h
    simp
  · have hsp : (r == ' ') = false := beq_eq_false_iff_ne.mpr h
    simp only [goIsLetterASCII, goIsNumberASCII, hsp, Bool.or_false,
      Bool.or_eq_false_iff, Bool.not_eq_false', Bool.or_eq_true,
      Bool.and_eq_true, decide_eq_true_eq, gt_iff_lt,
      decide_eq_false_iff_not, not_lt, h, or_false]
    omega

/-- A key absent from the front table makes lookup fall through an
append. -/
theorem lookupKeyPair_append_of_none (t1 t2 : List (String × String))
    (k : String) (h : lookupKeyPair t1 k = none) :
    lookupKeyPair (t1 ++ t2) k = lookupKeyPair t2 k := by
  induction t1 with
  | nil => rfl
  | cons p t ih =>
      by_cases hp : (p.1 == k) = true
      · simp [lookupKeyPair, List.find?, hp] at h
      · simp only [lookupKeyPair, List.cons_append, List.find?, hp] at h ⊢
        exact ih h

/-- A key absent from a table leaves nothing behind in the filter on that
key. -/
theorem filter_eq_nil_of_lookup_none (t : List (String × String)) (k : String)
    (h : lookupKeyPair t k = none) :
    t.filter (fun p => p.1 == k) = [] := by
  induction t with
  | nil => rfl
  | cons p t ih =>
      by_cases hp : (p.1 == k) = true
      · simp [lookupKeyPair, List.find?, hp] at h
      · simp only [lookupKeyPair, List.find?, hp] at h
        simp [List.filter, hp, ih h]

/-- The barrier-joined fold shared by waitForHosts and the bootstrap
fan-out collects exactly the per-host failures, in host order. -/
theorem foldl_addResult_spec (g : Host → Option String) (hosts : List Host)
    (nr : NodeResults) :
    (hosts.foldl
      (fun nr h =>
        match g h with
        | some e => nr.addResult h.NodeID e
        | none => nr) nr).results =
    nr.results ++ hosts.filterMap (fun h => (g h).map (fun e => (h.NodeID, e))) := by
  induction hosts generalizing nr with
  | nil => simp
  | cons h t ih =>
      cases hg : g h with
      | none =>
          simp only [List.foldl_cons, hg]
          rw [ih]
          simp [hg]
      | some e =>
          simp only [List.foldl_cons, hg]
          rw [ih]
          simp [hg, NodeResults.addResult]

/-- Counting the collected failures: one entry per host whose check
failed. -/
theorem length_filterMap_failures (g : Host → Option String) (hosts : List Host) :
    (hosts.filterMap (fun h => (g h).map (fun e => (h.NodeID, e)))).length =
      (hosts.filter (fun h => (g h).isSome)).length := by
  induction hosts with
  | nil => rfl
  | cons h t ih =>
      cases hg : g h with
      | none => simp [hg, List.filter, ih]
      | some e => simp [hg, List.filter, ih]

/-- A host whose check failed appears in the collected node identifiers. -/
theorem mem_filterMap_failures (g : Host → Option String) (hosts : List Host)
    (h : Host) (hmem : h ∈ hosts) (e : String) (hg : g h = some e) :
    h.NodeID ∈ (hosts.filterMap (fun h => (g h).map (fun e => (h.NodeID, e)))).map Prod.fst := by
  refine List.mem_map.mpr ⟨(h.NodeID, e), ?_, rfl⟩
  exact List.mem_filterMap.mpr ⟨h, hmem, by simp [hg]⟩

/-- Filtering a tagged region list and projecting back the instance ids. -/
theorem map_snd_filter_pair (region : String) (stopOk : String → String → Bool)
    (l : List String) :
    ((l.map (fun i => (region, i))).filter (fun p => !(stopOk p.1 p.2))).map Prod.snd =
      l.filter (fun i => !(stopOk region i)) := by
  induction l with
  | nil => rfl
  | cons i t ih =>
      cases hs : stopOk region i with
      | false => simp [List.filter, hs, ih]
      | true => simp [List.filter, hs, ih]

/-- The teardown stop loop attempts a stop call for every created instance
and records exactly the instances whose stop failed. -/
theorem runStopLoop_spec (stopOk : String → String → Bool)
    (instanceIDs : List (String × List String)) :
    (runStopLoop stopOk instanceIDs).1 = allStopCalls instanceIDs ∧
    (runStopLoop stopOk instanceIDs).2 =
      ((allStopCalls instanceIDs).filter (fun p => !(stopOk p.1 p.2))).map Prod.snd := by
  induction instanceIDs with
  | nil => exact ⟨rfl, rfl⟩
  | cons entry rest ih =>
      obtain ⟨region, iids⟩ := entry
      constructor
      · simp [runStopLoop, allStopCalls, ih.1]
      · simp [runStopLoop, allStopCalls, ih.2, List.filter_append,
          map_snd_filter_pair]

/-! ## Claim theorems -/

/-- C2: for every non-empty, duplicate-free list of stage names, a newly
constructed state machine has Running true while positioned at the first
stage, and a Forward transition from a running machine over those stages
makes Running false exactly when issued from the last stage - and not
before: Forward from any earlier stage keeps Running true, and a successful
Backward transition never ends the run. -/
theorem stateMachine_running_lifecycle (names : List String)
    (hne : names ≠ []) (hnd : names.Nodup) :
    ∃ sm, NewStateMachine names = Except.ok sm ∧ sm.index = 0 ∧
      Running sm = true ∧ CurrentState sm = names.headI ∧
      ∀ sm2 : StateMachine, sm2.states = names → Running sm2 = true →
        (∀ sm3, NextState sm2 StateDirection.Forward = Except.ok sm3 →
          (Running sm3 = false ↔ sm2.index = names.length - 1)) ∧
        (∀ sm3, NextState sm2 StateDirection.Backward = Except.ok sm3 →
          Running sm3 = true) := by
  refine ⟨{ states := names, index := 0 }, ?_, rfl, ?_, ?_, ?_⟩
  · simp [NewStateMachine, hnd]
  · simp [Running, List.length_pos.mpr hne]
  · cases names with
    | nil => exact absurd rfl hne
    | cons a t => rfl
  · intro sm2 hstates hrun
    have hlen : sm2.index < names.length := by
      simpa [Running, hstates] using hrun
    constructor
    · intro sm3 h3
      have h4 : ({ sm2 with index := sm2.index + 1 } : StateMachine) = sm3 :=
        Except.ok.inj h3
      rw [← h4]
      simp only [Running, hstates, decide_eq_false_iff_not, not_lt]
      omega
    · intro sm3 h3
      by_cases h0 : sm2.index = 0
      · simp [NextState, h0] at h3
      · rw [show NextState sm2 StateDirection.Backward =
              (if sm2.index = 0 then Except.error SMError.InvalidBacktrack
               else Except.ok { sm2 with index := sm2.index - 1 }) from rfl,
            if_neg h0] at h3
        have h4 := Except.ok.inj h3
        rw [← h4]
        simp only [Running, hstates, decide_eq_true_eq]
        omega

/-- Witness for stateMachine_running_lifecycle at the four wizard stages of
createEvmGenesisBytes. -/
theorem stateMachine_running_lifecycle_witness :
    ∃ sm, NewStateMachine ["descriptors", "fee", "airdrop", "precompiles"] =
        Except.ok sm ∧ Running sm = true ∧ CurrentState sm = "descriptors" := by
  obtain ⟨sm, h1, -, h3, h4, -⟩ :=
    stateMachine_running_lifecycle ["descriptors", "fee", "airdrop", "precompiles"]
      (by decide) (by decide)
  exact ⟨sm, h1, h3, h4⟩

/-- C3: NextState Backward at index 0 fails with InvalidBacktrack (the
functional model keeps the machine unchanged), and at any later index it
succeeds, moving only the index to the immediately preceding stage. -/
theorem nextState_backward_behavior (sm : StateMachine) :
    (sm.index = 0 →
      NextState sm StateDirection.Backward = Except.error SMError.InvalidBacktrack) ∧
    (sm.index ≠ 0 →
      NextState sm StateDirection.Backward =
        Except.ok { states := sm.states, index := sm.index - 1 }) := by
  constructor
  · intro h
    simp [NextState, h]
  · intro h
    simp [NextState, h]

/-- Witness for nextState_backward_behavior on a two-stage machine. -/
theorem nextState_backward_behavior_witness :
    NextState { states := ["descriptors", "fee"], index := 0 }
        StateDirection.Backward = Except.error SMError.InvalidBacktrack ∧
    NextState { states := ["descriptors", "fee"], index := 1 }
        StateDirection.Backward =
      Except.ok { states := ["descriptors", "fee"], index := 0 } :=
  ⟨(nextState_backward_behavior _).1 rfl,
   (nextState_backward_behavior _).2 (by decide)⟩

/-- C9: checkInvalidSubnetNames accepts exactly the strings all of whose
runes are ASCII letters, ASCII digits or the space (the empty string
included), and any other string - any other ASCII character or any
non-ASCII rune - fails with errIllegalNameCharacter, whose text claims only
letters are allowed. -/
theorem checkInvalidSubnetNames_characterization (name : List Char) :
    (checkInvalidSubnetNames name = Except.ok () ↔
      ∀ r ∈ name, (65 ≤ r.toNat ∧ r.toNat ≤ 90) ∨ (97 ≤ r.toNat ∧ r.toNat ≤ 122) ∨
        (48 ≤ r.toNat ∧ r.toNat ≤ 57) ∨ r = ' ') ∧
    (checkInvalidSubnetNames name ≠ Except.ok () →
      checkInvalidSubnetNames name = Except.error errIllegalNameCharacter) := by
  induction name with
  | nil =>
      constructor
      · simp [checkInvalidSubnetNames]
      · intro h
        exact absurd rfl h
  | cons r rest ih =>
      by_cases hr : (r.toNat > 127 || !(goIsLetterASCII r || goIsNumberASCII r || r == ' ')) = true
      · have hbad : ¬((65 ≤ r.toNat ∧ r.toNat ≤ 90) ∨ (97 ≤ r.toNat ∧ r.toNat ≤ 122) ∨
            (48 ≤ r.toNat ∧ r.toNat ≤ 57) ∨ r = ' ') := by
          intro hacc
          rw [← subnetNameChar_ok_iff] at hacc
          rw [hacc] at hr
          exact Bool.false_ne_true hr
        constructor
        · constructor
          · intro hok
            simp only [checkInvalidSubnetNames, if_pos hr] at hok
            exact Except.noConfusion hok
          · intro hall
            exact absurd (hall r (List.mem_cons_self r rest)) hbad
        · intro _
          simp only [checkInvalidSubnetNames, if_pos hr]
      · have hfalse : (r.toNat > 127 || !(goIsLetterASCII r || goIsNumberASCII r || r == ' ')) = false := by
          simpa using hr
        have hacc := (subnetNameChar_ok_iff r).mp hfalse
        constructor
        · constructor
          · intro hok r2 hr2
            rcases List.mem_cons.mp hr2 with h2 | hmem
            · rw [h2]
              exact hacc
            · simp only [checkInvalidSubnetNames, if_neg hr] at hok
              exact ih.1.mp hok r2 hmem
          · intro hall
            simp only [checkInvalidSubnetNames, if_neg hr]
            exact ih.1.mpr (fun r2 h2 => hall r2 (List.mem_cons_of_mem r h2))
        · intro hne2
          simp only [checkInvalidSubnetNames, if_neg hr] at hne2 ⊢
          exact ih.2 hne2

/-- Witness for checkInvalidSubnetNames_characterization: a name of letters,
digits and a space is accepted; an underscore is rejected with the
illegal-name-character error. -/
theorem checkInvalidSubnetNames_characterization_witness :
    checkInvalidSubnetNames ['m', 'y', ' ', 'S', 'u', 'b', 'n', 'e', 't', '1'] =
        Except.ok () ∧
    checkInvalidSubnetNames ['b', 'a', 'd', '_'] =
        Except.error errIllegalNameCharacter := by
  constructor
  · exact (checkInvalidSubnetNames_characterization _).1.mpr (by decide)
  · exact (checkInvalidSubnetNames_characterization _).2
      (fun h => Except.noConfusion h)

/-- C6: registering a key-pair name whose entry is absent, then calling the
update again for the same name - whatever certificate path the second call
supplies - leaves exactly one entry for that name, holding the originally
registered certificate path; the second call changes nothing at all. -/
theorem updateKeyPairClustersConfig_no_overwrite (store : ClustersConfig)
    (cc cc2 : CloudConfig) (hsame : cc2.KeyPair = cc.KeyPair)
    (habsent : lookupKeyPair store.KeyPair cc.KeyPair = none) :
    lookupKeyPair (updateKeyPairClustersConfig cc2
        (some (updateKeyPairClustersConfig cc (some store)))).KeyPair cc.KeyPair =
      some cc.CertFilePath ∧
    ((updateKeyPairClustersConfig cc2
        (some (updateKeyPairClustersConfig cc (some store)))).KeyPair.filter
        (fun p => p.1 == cc.KeyPair)).length = 1 ∧
    updateKeyPairClustersConfig cc2
        (some (updateKeyPairClustersConfig cc (some store))) =
      updateKeyPairClustersConfig cc (some store) := by
  have h1 : updateKeyPairClustersConfig cc (some store) =
      { store with KeyPair := store.KeyPair ++ [(cc.KeyPair, cc.CertFilePath)] } := by
    simp [updateKeyPairClustersConfig, habsent]
  have hlook : lookupKeyPair (store.KeyPair ++ [(cc.KeyPair, cc.CertFilePath)])
      cc.KeyPair = some cc.CertFilePath := by
    rw [lookupKeyPair_append_of_none _ _ _ habsent]
    simp [lookupKeyPair]
  have h2 : updateKeyPairClustersConfig cc2
      (some (updateKeyPairClustersConfig cc (some store))) =
      updateKeyPairClustersConfig cc (some store) := by
    rw [h1]
    simp [updateKeyPairClustersConfig, hsame, hlook]
  refine ⟨?_, ?_, h2⟩
  · rw [h2, h1]
    exact hlook
  · rw [h2, h1]
    simp only [List.filter_append, List.length_append,
      filter_eq_nil_of_lookup_none store.KeyPair cc.KeyPair habsent]
    simp

/-- Witness for updateKeyPairClustersConfig_no_overwrite: two registrations
of kp1, the second with a different path, keep the original path as the
single entry. -/
theorem updateKeyPairClustersConfig_no_overwrite_witness :
    lookupKeyPair (updateKeyPairClustersConfig exampleCloudConfigB
        (some (updateKeyPairClustersConfig exampleCloudConfigA
          (some { KeyPair := [] })))).KeyPair "kp1" =
      some "/home/user/.ssh/kp1-cert.pem" ∧
    ((updateKeyPairClustersConfig exampleCloudConfigB
        (some (updateKeyPairClustersConfig exampleCloudConfigA
          (some { KeyPair := [] })))).KeyPair.filter
        (fun p => p.1 == "kp1")).length = 1 := by
  have h := updateKeyPairClustersConfig_no_overwrite { KeyPair := [] }
    exampleCloudConfigA exampleCloudConfigB rfl rfl
  exact ⟨h.1, h.2.1⟩

/-- C4: when the infra apply fails after instances were created, the
teardown attempts a stop call for every one of the created instances; if
every stop succeeds the operation fails with the original creation error
(no failed stop named), and if some stops fail the returned error
enumerates exactly the instance ids whose stop call failed. -/
theorem createAWSInstancesTeardown_spec (msg : String)
    (instanceIDs : List (String × List String)) (instanceRegions : List String)
    (stopOk : String → String → Bool)
    (hlen : instanceIDs.length = instanceRegions.length) :
    (runStopLoop stopOk instanceIDs).1 = allStopCalls instanceIDs ∧
    ((allStopCalls instanceIDs).filter (fun p => !(stopOk p.1 p.2)) = [] →
      createAWSInstancesTeardown msg instanceIDs instanceRegions stopOk =
        AWSCreateError.creation msg) ∧
    ((allStopCalls instanceIDs).filter (fun p => !(stopOk p.1 p.2)) ≠ [] →
      createAWSInstancesTeardown msg instanceIDs instanceRegions stopOk =
        AWSCreateError.failedToStop
          (((allStopCalls instanceIDs).filter (fun p => !(stopOk p.1 p.2))).map
            Prod.snd)) := by
  obtain ⟨hcalls, hfail⟩ := runStopLoop_spec stopOk instanceIDs
  have hcond : ¬(instanceIDs.length ≠ instanceRegions.length) := fun hc => hc hlen
  refine ⟨hcalls, ?_, ?_⟩
  · intro hnil
    simp only [createAWSInstancesTeardown, if_neg hcond]
    rw [hfail, hnil]
    simp
  · intro hne
    have hmapne : ((allStopCalls instanceIDs).filter
        (fun p => !(stopOk p.1 p.2))).map Prod.snd ≠ [] := by
      simpa using hne
    simp only [createAWSInstancesTeardown, if_neg hcond]
    rw [hfail]
    simp [hmapne]

/-- Witness for createAWSInstancesTeardown_spec: two instances in one
region; with every stop succeeding the original creation error is
surfaced; with the stop of i-2 failing the error names exactly i-2. -/
theorem createAWSInstancesTeardown_spec_witness :
    createAWSInstancesTeardown "terraform apply failed"
        [("us-east-1", ["i-1", "i-2"])] ["us-east-1"] (fun _ _ => true) =
      AWSCreateError.creation "terraform apply failed" ∧
    createAWSInstancesTeardown "terraform apply failed"
        [("us-east-1", ["i-1", "i-2"])] ["us-east-1"] (fun _ i => !(i == "i-2")) =
      AWSCreateError.failedToStop ["i-2"] := by
  constructor
  · exact (createAWSInstancesTeardown_spec "terraform apply failed"
      [("us-east-1", ["i-1", "i-2"])] ["us-east-1"] (fun _ _ => true) rfl).2.1
      (by decide)
  · have h := (createAWSInstancesTeardown_spec "terraform apply failed"
      [("us-east-1", ["i-1", "i-2"])] ["us-east-1"] (fun _ i => !(i == "i-2")) rfl).2.2
      (by decide)
    simpa using h

/-- preCreateChecks on a region/node-count mismatch always fails, and fails
with the mismatch error exactly when no earlier check fires. -/
theorem preCreateChecks_mismatch (f : NodeCreateFlags)
    (hmm : f.cmdLineRegion.length ≠ f.numNodes.length) :
    ∃ e, preCreateChecks f = Except.error e ∧
      (¬(f.useLatestAvalanchegoVersion ∧ f.useAvalanchegoVersionFromSubnet ≠ "") →
       ¬(f.useAWS ∧ f.useGCP) →
       ¬(¬f.useAWS ∧ f.awsProfile ≠ AWSDefaultCredential) →
       e = PreCreateErr.regionNodeCountMismatch) := by
  unfold preCreateChecks
  split_ifs with h1 h2 h3
  · exact ⟨_, rfl, fun hc _ _ => absurd h1 hc⟩
  · exact ⟨_, rfl, fun _ hc _ => absurd h2 hc⟩
  · exact ⟨_, rfl, fun _ _ hc => absurd h3 hc⟩
  · exact ⟨_, rfl, fun _ _ _ => rfl⟩

/-- C5 (amended): every node create invocation whose region list length
differs from the node-count list length fails inside preCreateChecks,
before any cloud-provider or infra collaborator call (the recorded
collaborator trace is empty); the error is the region/node-count mismatch
error whenever the earlier checks (version-flag conflict, dual cloud
selection, AWS profile without AWS) pass. -/
theorem createNodes_mismatch_fails_before_cloud (f : NodeCreateFlags)
    (env : NodeCreateEnv) (hmm : f.cmdLineRegion.length ≠ f.numNodes.length) :
    (∃ e, (createNodesModel f env).1 = Except.error (CreateNodesError.preCreate e)) ∧
    (createNodesModel f env).2 = [] ∧
    (¬(f.useLatestAvalanchegoVersion ∧ f.useAvalanchegoVersionFromSubnet ≠ "") →
     ¬(f.useAWS ∧ f.useGCP) →
     ¬(¬f.useAWS ∧ f.awsProfile ≠ AWSDefaultCredential) →
     (createNodesModel f env).1 =
       Except.error (CreateNodesError.preCreate PreCreateErr.regionNodeCountMismatch)) := by
  obtain ⟨e, he, hcond⟩ := preCreateChecks_mismatch f hmm
  refine ⟨⟨e, ?_⟩, ?_, ?_⟩
  · simp [createNodesModel, he]
  · simp [createNodesModel, he]
  · intro h1 h2 h3
    rw [hcond h1 h2 h3] at he
    simp [createNodesModel, he]

/-- C5 counterexample: an invocation with one region and an empty
node-count list that also sets both cloud flags fails before any
collaborator call, but with the dual-cloud configuration error - not the
mismatch error the claim requires for every mismatching invocation. -/
theorem createNodes_mismatch_error_counterexample :
    mismatchConflictFlags.cmdLineRegion.length ≠ mismatchConflictFlags.numNodes.length ∧
    (createNodesModel mismatchConflictFlags stubNodeCreateEnv).1 =
      Except.error (CreateNodesError.preCreate PreCreateErr.cloudConflict) ∧
    (createNodesModel mismatchConflictFlags stubNodeCreateEnv).2 = [] ∧
    (createNodesModel mismatchConflictFlags stubNodeCreateEnv).1 ≠
      Except.error (CreateNodesError.preCreate PreCreateErr.regionNodeCountMismatch) := by
  refine ⟨by decide, rfl, rfl, ?_⟩
  intro h
  exact PreCreateErr.noConfusion (CreateNodesError.preCreate.inj (Except.error.inj h))

/-- Witness for createNodes_mismatch_fails_before_cloud: one region, no
node counts, only AWS selected - the mismatch error is returned and no
collaborator is called. -/
theorem createNodes_mismatch_fails_before_cloud_witness :
    (createNodesModel mismatchOnlyFlags stubNodeCreateEnv).1 =
      Except.error (CreateNodesError.preCreate PreCreateErr.regionNodeCountMismatch) ∧
    (createNodesModel mismatchOnlyFlags stubNodeCreateEnv).2 = [] := by
  have h := createNodes_mismatch_fails_before_cloud mismatchOnlyFlags
    stubNodeCreateEnv (by decide)
  exact ⟨h.2.2 (by decide) (by decide) (by decide), h.2.1⟩

/-- C7 (amended): in the per-node bootstrap fan-out the first failing step
of a host aborts only the fixed step sequence of that host and records its
(node identifier, error) pair in the aggregate; a host whose step outcomes
are untouched is unaffected by the outcomes of another host; and after the
join, on a non-devnet run or a devnet run whose devnet setup succeeds, the
operation returns a single aggregate error naming exactly the failed nodes
- while on a devnet run whose setup fails that setup error is returned
instead, since the devnet branch of part_000 lines 299-304 runs between
the join and the aggregate check. The model applies no rollback to the
succeeded hosts, which ran their full sequence. -/
theorem createNodes_bootstrap_isolation (stepErrs : Host → HostStepErrs)
    (hosts : List Host) :
    (createNodesFanout stepErrs hosts).results =
      hosts.filterMap (fun h =>
        ((hostBootstrapOutcome (stepErrs h)).1).map (fun e => (h.NodeID, e))) ∧
    (∀ e : HostStepErrs, ∀ msg, e.connect = some msg →
      hostBootstrapOutcome e = (some msg, bootstrapSequence.take 1)) ∧
    (∀ e : HostStepErrs, ∀ msg, e.connect = none → e.stakingCertAndKey = some msg →
      hostBootstrapOutcome e = (some msg, bootstrapSequence.take 2)) ∧
    (∀ e : HostStepErrs, ∀ msg, e.connect = none → e.stakingCertAndKey = none →
      e.setupNode = some msg →
      hostBootstrapOutcome e = (some msg, bootstrapSequence.take 3)) ∧
    (∀ e : HostStepErrs, ∀ msg, e.connect = none → e.stakingCertAndKey = none →
      e.setupNode = none → e.setupBuildEnv = some msg →
      hostBootstrapOutcome e = (some msg, bootstrapSequence.take 4)) ∧
    (∀ e : HostStepErrs, ∀ msg, e.connect = none → e.stakingCertAndKey = none →
      e.setupNode = none → e.setupBuildEnv = none →
      e.setupCLIFromSource = some msg →
      hostBootstrapOutcome e = (some msg, bootstrapSequence)) ∧
    (∀ e : HostStepErrs, (∀ s, e.get s = none) →
      hostBootstrapOutcome e = (none, bootstrapSequence)) ∧
    (∀ stepErrs2 : Host → HostStepErrs, ∀ h0 : Host,
      (∀ h : Host, h ≠ h0 → stepErrs2 h = stepErrs h) →
      ∀ h : Host, h ≠ h0 →
        hostBootstrapOutcome (stepErrs2 h) = hostBootstrapOutcome (stepErrs h)) ∧
    (∀ isDevnet setupDevnetResult,
      (isDevnet = false ∨ setupDevnetResult = Except.ok ()) →
      createNodesBootstrapResult stepErrs hosts isDevnet setupDevnetResult =
        if hosts.filterMap (fun h =>
              ((hostBootstrapOutcome (stepErrs h)).1).map (fun e => (h.NodeID, e))) = []
        then Except.ok ()
        else Except.error (CreateNodesTailError.failedToDeploy
          (hosts.filterMap (fun h =>
            ((hostBootstrapOutcome (stepErrs h)).1).map (fun e => (h.NodeID, e)))))) ∧
    (∀ m, createNodesBootstrapResult stepErrs hosts true (Except.error m) =
      Except.error (CreateNodesTailError.devnetSetup m)) := by
  have hres : (createNodesFanout stepErrs hosts).results =
      hosts.filterMap (fun h =>
        ((hostBootstrapOutcome (stepErrs h)).1).map (fun e => (h.NodeID, e))) := by
    simpa [createNodesFanout] using
      foldl_addResult_spec (fun h => (hostBootstrapOutcome (stepErrs h)).1) hosts
        { results := [] }
  refine ⟨hres, ?_, ?_, ?_, ?_, ?_, ?_, ?_, ?_, ?_⟩
  · intro e msg h1
    simp [hostBootstrapOutcome, h1, bootstrapSequence]
  · intro e msg h1 h2
    simp [hostBootstrapOutcome, h1, h2, bootstrapSequence]
  · intro e msg h1 h2 h3
    simp [hostBootstrapOutcome, h1, h2, h3, bootstrapSequence]
  · intro e msg h1 h2 h3 h4
    simp [hostBootstrapOutcome, h1, h2, h3, h4, bootstrapSequence]
  · intro e msg h1 h2 h3 h4 h5
    simp [hostBootstrapOutcome, h1, h2, h3, h4, h5]
  · intro e hall
    have h1 : e.connect = none := hall BootstrapStep.connect
    have h2 : e.stakingCertAndKey = none := hall BootstrapStep.stakingCertAndKey
    have h3 : e.setupNode = none := hall BootstrapStep.setupNode
    have h4 : e.setupBuildEnv = none := hall BootstrapStep.setupBuildEnv
    have h5 : e.setupCLIFromSource = none := hall BootstrapStep.setupCLIFromSource
    simp [hostBootstrapOutcome, h1, h2, h3, h4, h5]
  · intro stepErrs2 h0 hagree h hne
    rw [hagree h hne]
  · intro isDevnet setupDevnetResult hok
    have hskip : (if isDevnet then setupDevnetResult else Except.ok ()) =
        Except.ok () := by
      cases hok with
      | inl hfalse => rw [hfalse]; rfl
      | inr hres2 => cases isDevnet <;> simp [hres2]
    by_cases hl : hosts.filterMap (fun h =>
        ((hostBootstrapOutcome (stepErrs h)).1).map (fun e => (h.NodeID, e))) = []
    · simp [createNodesBootstrapResult, hskip, NodeResults.hasErrors, hres, hl]
    · simp [createNodesBootstrapResult, hskip, NodeResults.hasErrors, hres, hl]
  · intro m
    simp [createNodesBootstrapResult]

/-- C7 counterexample: a devnet run in which hostB failed its bootstrap and
the devnet setup also fails returns the devnet setup error between the
join and the aggregate check - not the single aggregate error naming the
failed nodes that the claim requires of the operation. -/
theorem createNodes_devnet_setup_error_counterexample :
    (createNodesFanout exampleStepErrs [hostA, hostB]).results =
      [("NodeID-B", "upload failed")] ∧
    createNodesBootstrapResult exampleStepErrs [hostA, hostB] true
        (Except.error "devnet setup failed") =
      Except.error (CreateNodesTailError.devnetSetup "devnet setup failed") ∧
    createNodesBootstrapResult exampleStepErrs [hostA, hostB] true
        (Except.error "devnet setup failed") ≠
      Except.error (CreateNodesTailError.failedToDeploy
        [("NodeID-B", "upload failed")]) := by
  refine ⟨rfl, rfl, ?_⟩
  intro h
  exact CreateNodesTailError.noConfusion (Except.error.inj h)

/-- Witness for createNodes_bootstrap_isolation: of two hosts, only hostB
(whose staking-key upload fails) is recorded, with its first failing step
aborting its sequence after two steps; on a non-devnet run the aggregate
error names exactly hostB, and on a devnet run whose setup fails that
error is returned instead. -/
theorem createNodes_bootstrap_isolation_witness :
    (createNodesFanout exampleStepErrs [hostA, hostB]).results =
      [("NodeID-B", "upload failed")] ∧
    hostBootstrapOutcome (exampleStepErrs hostB) =
      (some "upload failed", bootstrapSequence.take 2) ∧
    createNodesBootstrapResult exampleStepErrs [hostA, hostB] false
        (Except.ok ()) =
      Except.error (CreateNodesTailError.failedToDeploy
        [("NodeID-B", "upload failed")]) ∧
    createNodesBootstrapResult exampleStepErrs [hostA, hostB] true
        (Except.error "boom") =
      Except.error (CreateNodesTailError.devnetSetup "boom") := by
  have h := createNodes_bootstrap_isolation exampleStepErrs [hostA, hostB]
  refine ⟨?_, ?_, ?_, ?_⟩
  · rw [h.1]
    rfl
  · exact h.2.2.1 (exampleStepErrs hostB) "upload failed" rfl rfl
  · have h9 := h.2.2.2.2.2.2.2.2.1 false (Except.ok ()) (Or.inl rfl)
    rw [h9]
    rfl
  · exact h.2.2.2.2.2.2.2.2.2 "boom"

/-- C10: in both the reachability waiter and the bootstrap fan-out an entry
is written to the aggregate only when the check of a host fails: after the join
the length of the aggregate equals the number of failed hosts, and a host whose
node identifier is absent from the aggregate succeeded. -/
theorem nodeResults_entries_only_on_failure (waitErr : Host → Option String)
    (stepErrs : Host → HostStepErrs) (hosts : List Host) :
    (waitForHosts waitErr hosts).len =
      (hosts.filter (fun h => (waitErr h).isSome)).length ∧
    (∀ h ∈ hosts, h.NodeID ∉ (waitForHosts waitErr hosts).nodeIDs →
      waitErr h = none) ∧
    (createNodesFanout stepErrs hosts).len =
      (hosts.filter (fun h => ((hostBootstrapOutcome (stepErrs h)).1).isSome)).length ∧
    (∀ h ∈ hosts, h.NodeID ∉ (createNodesFanout stepErrs hosts).nodeIDs →
      (hostBootstrapOutcome (stepErrs h)).1 = none) := by
  have hw : (waitForHosts waitErr hosts).results =
      hosts.filterMap (fun h => (waitErr h).map (fun e => (h.NodeID, e))) := by
    simpa [waitForHosts] using foldl_addResult_spec waitErr hosts { results := [] }
  have hb : (createNodesFanout stepErrs hosts).results =
      hosts.filterMap (fun h =>
        ((hostBootstrapOutcome (stepErrs h)).1).map (fun e => (h.NodeID, e))) := by
    simpa [createNodesFanout] using
      foldl_addResult_spec (fun h => (hostBootstrapOutcome (stepErrs h)).1) hosts
        { results := [] }
  refine ⟨?_, ?_, ?_, ?_⟩
  · rw [NodeResults.len, hw]
    exact length_filterMap_failures waitErr hosts
  · intro h hmem habs
    cases hwe : waitErr h with
    | none => rfl
    | some e =>
        simp only [NodeResults.nodeIDs, hw] at habs
        exact absurd (mem_filterMap_failures waitErr hosts h hmem e hwe) habs
  · rw [NodeResults.len, hb]
    exact length_filterMap_failures (fun h => (hostBootstrapOutcome (stepErrs h)).1) hosts
  · intro h hmem habs
    cases hwe : (hostBootstrapOutcome (stepErrs h)).1 with
    | none => rfl
    | some e =>
        simp only [NodeResults.nodeIDs, hb] at habs
        exact absurd
          (mem_filterMap_failures (fun h => (hostBootstrapOutcome (stepErrs h)).1)
            hosts h hmem e hwe) habs

/-- Witness for nodeResults_entries_only_on_failure: of two hosts, exactly
the unreachable hostB is recorded by the waiter, and the absence of
NodeID-A from the bootstrap aggregate certifies the success of hostA. -/
theorem nodeResults_entries_only_on_failure_witness :
    (waitForHosts exampleWaitErr [hostA, hostB]).len = 1 ∧
    exampleWaitErr hostA = none ∧
    (hostBootstrapOutcome (exampleStepErrs hostA)).1 = none := by
  have h := nodeResults_entries_only_on_failure exampleWaitErr exampleStepErrs
    [hostA, hostB]
  refine ⟨?_, ?_, ?_⟩
  · rw [h.1]
    rfl
  · exact h.2.1 hostA (by simp) (by decide)
  · exact h.2.2.2 hostA (by simp) (by decide)

/-- Values returned by the uint64 parse respect the 64-bit bound. -/
theorem goParseUint64_lt (s : String) (v : Nat) (h : goParseUint64 s = some v) :
    v < 2 ^ 64 := by
  unfold goParseUint64 at h
  cases hp : goParseUintBase0 s.data with
  | none =>
      rw [hp] at h
      exact Option.noConfusion h
  | some w =>
      rw [hp] at h
      change (if w < 2 ^ 64 then some w else none) = some v at h
      by_cases hlt : w < 2 ^ 64
      · rw [if_pos hlt] at h
        rw [← Option.some.inj h]
        exact hlt
      · rw [if_neg hlt] at h
        exact Option.noConfusion h

/-- C8 (amended): chain identifiers and token amounts are unsigned 64-bit
integers and allocation balances are arbitrary-precision non-negative
integers; the value 0 is accepted for allocation balances, but not for
chain identifiers or token amounts: every value the uint64 capture returns
is strictly positive (its validator requires a value bigger than zero), and
the chain-id flag value 0 counts as unset, sending the operator to that
same capture. -/
theorem numericCaptures_semantics :
    (∀ input v, CaptureUint64 input = Except.ok v → 0 < v ∧ v < 2 ^ 64) ∧
    (∀ input n, CapturePositiveBigInt input = Except.ok n → 0 ≤ n) ∧
    CapturePositiveBigInt "0" = Except.ok 0 ∧
    CapturePositiveBigInt "340282366920938463463374607431768211456" =
      Except.ok 340282366920938463463374607431768211456 ∧
    (2 ^ 64 : Int) < 340282366920938463463374607431768211456 ∧
    (∀ input, chainIDStep 0 input = CaptureUint64 input) ∧
    CaptureUint64 "0" = Except.error PromptErr.rejected ∧
    (∀ c, c ≠ 0 → ∀ input, chainIDStep c input = Except.ok c) := by
  refine ⟨?_, ?_, rfl, rfl, by norm_num, fun _ => rfl, rfl, ?_⟩
  · intro input v h
    unfold CaptureUint64 at h
    by_cases hv : validateBiggerThanZero input = true
    · rw [if_pos hv] at h
      cases hp : goParseUint64 input with
      | none =>
          rw [hp] at h
          exact Except.noConfusion h
      | some w =>
          rw [hp] at h
          have hvw : v = w := (Except.ok.inj h).symm
          subst hvw
          refine ⟨?_, goParseUint64_lt input v hp⟩
          unfold validateBiggerThanZero at hv
          rw [hp] at hv
          simpa using hv
    · rw [if_neg hv] at h
      exact Except.noConfusion h
  · intro input n h
    unfold CapturePositiveBigInt at h
    by_cases hv : validatePositiveBigInt input = true
    · rw [if_pos hv] at h
      cases hp : goParseBigInt10 input with
      | none =>
          rw [hp] at h
          exact Except.noConfusion h
      | some m =>
          rw [hp] at h
          have hnm : n = m := (Except.ok.inj h).symm
          subst hnm
          unfold validatePositiveBigInt at hv
          rw [hp] at hv
          simpa using hv
    · rw [if_neg hv] at h
      exact Except.noConfusion h
  · intro c hc input
    simp [chainIDStep, hc]

/-- C8 counterexample: the value 0 is not accepted for a chain identifier:
the flag value 0 falls through to the CaptureUint64 prompt and the validator of the prompt
rejects the entry 0 (the same capture serves token amounts),
while the balance capture does accept 0. -/
theorem captureUint64_zero_rejected_counterexample :
    chainIDStep 0 "0" = Except.error PromptErr.rejected ∧
    CaptureUint64 "0" = Except.error PromptErr.rejected ∧
    CapturePositiveBigInt "0" = Except.ok 0 ∧
    chainIDStep 0 "0" ≠ Except.ok 0 := by
  refine ⟨rfl, rfl, rfl, ?_⟩
  intro h
  exact Except.noConfusion h

/-- Witness for numericCaptures_semantics at the entries 7, 5 and the flag
value 9. -/
theorem numericCaptures_semantics_witness :
    (0 < 7 ∧ 7 < 2 ^ 64) ∧ (0 ≤ (5 : Int)) ∧
    chainIDStep 9 "unused" = Except.ok 9 :=
  ⟨numericCaptures_semantics.1 "7" 7 rfl,
   numericCaptures_semantics.2.1 "5" 5 rfl,
   numericCaptures_semantics.2.2.2.2.2.2.2 9 (by decide) "unused"⟩

/-- C1: the dispatch the claim describes never happens: every run of the
subnet create command that completes the wizard returns success while
performing no persistent output, because the unconditional return nil at
create.go line 485 precedes the switch on the VM type, leaving the genesis
file write and the sidecar creation of lines 487-550 unreachable. -/
theorem callCreate_success_writes_nothing (flags0 : CreateFlags)
    (env : CreateEnv) (subnetName : String) (effs : List CreateEffect)
    (h : CallCreateModel flags0 env subnetName = Except.ok effs) :
    effs = [] ∧ CreateEffect.wroteGenesisFile subnetName ∉ effs ∧
    CreateEffect.createdSidecar subnetName ∉ effs := by
  have heff : effs = [] := by
    unfold CallCreateModel at h
    iterate 19 obtain ⟨_, -, h⟩ := except_bind_ok _ _ _ h
    exact (Except.ok.inj h).symm
  subst heff
  exact ⟨rfl, List.not_mem_nil _, List.not_mem_nil _⟩

/-- Witness for callCreate_success_writes_nothing: a fully answered
Subnet-EVM wizard run returns success with no genesis write and no sidecar
creation. -/
theorem callCreate_success_writes_nothing_witness :
    CallCreateModel exampleCreateFlags exampleCreateEnv "testsubnet" =
      Except.ok [] ∧
    CreateEffect.wroteGenesisFile "testsubnet" ∉ ([] : List CreateEffect) :=
  ⟨rfl, (callCreate_success_writes_nothing exampleCreateFlags exampleCreateEnv
    "testsubnet" [] rfl).2.1⟩

end AvalancheCLI
